import Mathlib

/-!
Verification of the nhl repository's game-data transformation layer
(src/nhl/game.py and src/nhl/team.py) against its specification.

The Python code is shallowly embedded: each nested-feed field read by the
code becomes a typed field (optional when the code guards the lookup with
try/except or the key can be absent), Python exceptions become an explicit
error type threaded through `Except`, and pandas DataFrames become lists of
typed row structures.  Network calls (`api.getLiveData`, `api.getTeamRoster`)
are external collaborators: a refresh is modelled as returning the same
archived feed already held by the instance.
-/

namespace NHL

deriving instance DecidableEq for Except

/-- Python `str.lower()`, implemented structurally over the character list
so that concrete instances evaluate inside proofs. -/
def strLower (s : String) : String := String.mk (s.data.map Char.toLower)

/-- Python exceptions that the transformation code can raise. -/
inductive PyErr where
  | keyError
  | indexError
  | typeError
deriving DecidableEq, Repr

/-- `player` object inside a participant entry: `{fullName, id}`. -/
structure Player where
  fullName : String
  id : Int
deriving DecidableEq, Repr

/-- One entry of a raw event's `players` list: `{playerType, player}`. -/
structure Participant where
  playerType : String
  player : Player
deriving DecidableEq, Repr

/-- One element of `live_data['plays']['allPlays']`, restricted to the fields
the code reads.  Fields whose key can be missing in the feed are `Option`;
`enGw` models the joint presence of `result.emptyNet` and
`result.gameWinningGoal` (the source reads both inside one try-block, so
either key missing leaves both attributes `None`). -/
structure RawEvent where
  eventTypeId : String
  event : String
  description : String
  secondaryType : Option String
  enGw : Option (Bool × Bool)
  strength : Option String
  team : Option String
  players : Option (List Participant)
  coordinates : Option (List Int)
  period : Int
  periodTime : String
  periodTimeRemaining : String
  goalsHome : Int
  goalsAway : Int
deriving DecidableEq, Repr

/-- `live_data['linescore']['teams']`: the two goal totals of the feed. -/
structure LinescoreTeams where
  homeGoals : Int
  awayGoals : Int
deriving DecidableEq, Repr

/-- `self.home_goals = live_data['linescore']['teams']['home']['goals']`
(game.py line 55). -/
def homeGoalsAttr (ls : LinescoreTeams) : Int := ls.homeGoals

/-- `self.away_goals = live_data['linescore']['teams']['home']['goals']`
(game.py line 56: the source reads the *home* entry here as well). -/
def awayGoalsAttr (ls : LinescoreTeams) : Int := ls.homeGoals

/-- `self.final = True` (game.py line 69: the commented-out detection is
replaced by the constant). -/
def finalAttr : Bool := true

/-- Winner derivation of `Game.__init__` (game.py lines 72-77):
`None` if not final, else home on strict goal lead, else away. -/
def winnerAttr (home away : String) (ls : LinescoreTeams) : Option String :=
  if finalAttr = false then none
  else if homeGoalsAttr ls > awayGoalsAttr ls then some home
  else some away

/-- One row of the DataFrame built by `Game.shotData` (game.py lines 152-217).
Every column starts as `None` (lines 161-162) and is filled for shot events. -/
structure ShotRow where
  shooter : Option String
  result : Option String
  other : Option String
  shotType : Option String
  coords : Option (List Int)
  period : Option Int
  periodTime : Option String
  shooterTeam : Option String
  otherTeam : Option String
deriving DecidableEq, Repr

/-- `shotIDs = ['SHOT', 'MISSED_SHOT', 'BLOCKED_SHOT', 'GOAL']` (line 157). -/
def shotIDs : List String := ["SHOT", "MISSED_SHOT", "BLOCKED_SHOT", "GOAL"]

/-- The first piece of Python `s.split('_')`: the prefix up to the first
underscore (the whole string when there is none). -/
def takeUntilUnderscore : List Char → List Char
  | [] => []
  | c :: rest => if c = '_' then [] else c :: takeUntilUnderscore rest

/-- `event['result']['eventTypeId'].split('_')[0].lower()` (line 167). -/
def shotResult (eventTypeId : String) : String :=
  strLower (String.mk (takeUntilUnderscore eventTypeId.data))

/-- Team attribution of `Game.shotData` (lines 170-181); returns
`(shooterTeam, otherTeam)` given the result kind and the raw event's
`team.triCode`. -/
def shotTeams (home away result tri : String) : String × String :=
  if result = "blocked" then
    (if home = tri then away else home, tri)
  else
    (tri, if home = tri then away else home)

/-- The `for p in event['players']` loop (lines 199-205): the last entry
tagged Shooter/Scorer wins the `shooter` slot, the last entry tagged
Goalie/Blocker wins the `other` slot. -/
def findShooterOther (ps : List Participant) : Option String × Option String :=
  ps.foldl
    (fun acc p =>
      let s := if p.playerType = "Shooter" ∨ p.playerType = "Scorer" then
                 some p.player.fullName else acc.1
      let o := if p.playerType = "Goalie" ∨ p.playerType = "Blocker" then
                 some p.player.fullName else acc.2
      (s, o))
    (none, none)

/-- Coordinate flip of `Game.shotData` (lines 207-212).  On an even period
the source runs `coords = -coords` under `except IndexError or TypeError`,
a clause that evaluates to `IndexError` alone; negating `None` (missing
coordinates) therefore raises an uncaught `TypeError`. -/
def flipCoords (coords : Option (List Int)) (period : Int) :
    Except PyErr (Option (List Int)) :=
  if period % 2 = 0 then
    match coords with
    | some v => .ok (some (v.map (fun x => -x)))
    | none => .error .typeError
  else .ok coords

/-- Body of the `for event in self.live_data['plays']['allPlays']` loop of
`Game.shotData` (lines 159-217): `none` for a non-shot event (no row
appended), a `ShotRow` for a shot event, or the Python exception the
iteration raises. -/
def processShotEvent (home away : String) (ev : RawEvent) :
    Except PyErr (Option ShotRow) :=
  if ev.eventTypeId ∈ shotIDs then
    match ev.team with
    | none => .error .keyError
    | some tri =>
      let result := shotResult ev.eventTypeId
      let teams := shotTeams home away result tri
      match ev.players with
      | none => .error .keyError
      | some ps =>
        let so := findShooterOther ps
        match flipCoords ev.coordinates ev.period with
        | .error e => .error e
        | .ok coords =>
          .ok (some { shooter := so.1, result := some result, other := so.2,
                      shotType := ev.secondaryType, coords := coords,
                      period := some ev.period, periodTime := some ev.periodTime,
                      shooterTeam := some teams.1, otherTeam := some teams.2 })
  else .ok none

/-- The whole shot-row loop of `Game.shotData`: rows in feed order, or the
first exception raised. -/
def shotRows (home away : String) : List RawEvent → Except PyErr (List ShotRow)
  | [] => .ok []
  | ev :: rest =>
    match processShotEvent home away ev with
    | .error e => .error e
    | .ok none => shotRows home away rest
    | .ok (some r) =>
      match shotRows home away rest with
      | .error e => .error e
      | .ok rs => .ok (r :: rs)

/-- One row of the DataFrame built by `Game.makeDataFrames`
(game.py lines 247-253, 335-343). -/
structure EventRow where
  event : String
  secondary_type : Option String
  player_one : Option String
  player_one_role : Option String
  player_two : Option String
  player_two_role : Option String
  coords : Option (List Int)
  period : Int
  period_time_remaining : String
  player_one_team : String
  player_two_team : String
  home_team : String
  home_team_id : Int
  away_team : String
  away_team_id : Int
  home_goals : Int
  away_goals : Int
  game_winning : Option Bool
  empty_net : Option Bool
  player_one_id : Option Int
  player_two_id : Option Int
  game_id : String
  winning_team : Option String
  date : String
  description : String
deriving DecidableEq, Repr

/-- `weird_events` (game.py lines 255-257). -/
def weird_events : List String :=
  ["Unknown", "Period Start", "Period End", "Game End", "Game Scheduled",
   "Period Ready", "Period Official", "Early Intermission Start",
   "Early Intermission End", "Game Official", "Shootout Complete"]

/-- `other_events` (game.py line 259). -/
def other_events : List String :=
  ["Stoppage", "Sub", "Fight", "Emergency Goaltender", "Official Challenge"]

/-- `game_events` (game.py lines 261-262); defined by the source but never
consulted when filtering plays. -/
def game_events : List String :=
  ["Faceoff", "Hit", "Giveaway", "Goal", "Shot", "Missed Shot", "Penalty",
   "Takeaway", "Blocked Shot"]

/-- The `empty_net` attribute a play yields (lines 290-295): set only when
both `result.emptyNet` and `result.gameWinningGoal` are present. -/
def playEmptyNet (play : RawEvent) : Option Bool := play.enGw.map Prod.fst

/-- The `game_winning` attribute a play yields (lines 290-295). -/
def playGameWinning (play : RawEvent) : Option Bool := play.enGw.map Prod.snd

/-- The participant try-block of `Game.makeDataFrames` (lines 307-326),
returning `(player_one, player_one_id, player_one_role, player_two,
player_two_id, player_two_role)`.  A missing `players` key raises `KeyError`
inside the block and is caught (all six fields stay `None`); an *empty*
`players` list raises `IndexError` at `play['players'][0]`, which the
`except KeyError` clause does not catch. -/
def playersFields (players : Option (List Participant)) (empty_net : Option Bool) :
    Except PyErr
      (Option String × Option Int × Option String ×
       Option String × Option Int × Option String) :=
  match players with
  | none => .ok (none, none, none, none, none, none)
  | some [] => .error .indexError
  | some (first :: rest) =>
    let lastP := rest.getLastD first
    let p1 := first.player.fullName
    if empty_net = some true then
      .ok (some p1, some first.player.id, some first.playerType, none, none, none)
    else if lastP.player.fullName = p1 then
      .ok (some p1, some first.player.id, some first.playerType, none, none, none)
    else
      .ok (some p1, some first.player.id, some first.playerType,
           some lastP.player.fullName, some lastP.player.id, some lastP.playerType)

/-- Per-game state of a `Game` instance after `__init__`: the derived
context attributes, the held live feed (`plays.allPlays`), and the two
private cache slots `_shotData` and `_DataFrame` (lines 107-108). -/
structure Game where
  home : String
  away : String
  home_id : Int
  away_id : Int
  game_id : String
  date : String
  winner : Option String
  live_plays : List RawEvent
  shotDataCache : Option (List ShotRow)
  dataFrameCache : Option (List EventRow)
deriving DecidableEq, Repr

/-- Row construction for one retained play of `Game.makeDataFrames`
(lines 272-343): everything after the two `continue` filters.  The only
uncaught raise points are an empty `players` list (IndexError, line 308)
and a missing `team` key (KeyError, line 328). -/
def buildRow (g : Game) (play : RawEvent) : Except PyErr EventRow :=
  let event := strLower play.eventTypeId
  let empty_net := playEmptyNet play
  let game_winning := playGameWinning play
  match playersFields play.players empty_net with
  | .error e => .error e
  | .ok (p1, p1id, p1role, p2, p2id, p2role) =>
    match play.team with
    | none => .error .keyError
    | some player_one_team =>
      let player_two_team := if g.home = player_one_team then g.away else g.home
      .ok { event := event, secondary_type := play.secondaryType,
            player_one := p1, player_one_role := p1role,
            player_two := p2, player_two_role := p2role,
            coords := play.coordinates, period := play.period,
            period_time_remaining := play.periodTimeRemaining,
            player_one_team := player_one_team,
            player_two_team := player_two_team,
            home_team := g.home, home_team_id := g.home_id,
            away_team := g.away, away_team_id := g.away_id,
            home_goals := play.goalsHome, away_goals := play.goalsAway,
            game_winning := game_winning, empty_net := empty_net,
            player_one_id := p1id, player_two_id := p2id,
            game_id := g.game_id, winning_team := g.winner,
            date := g.date, description := play.description }

/-- Body of the `for play in self.live_data['plays']['allPlays']` loop of
`Game.makeDataFrames` (lines 265-343): plays whose display name is in
`weird_events` or `other_events` are skipped via `continue`; every other
play, whatever its type, goes through `buildRow`. -/
def processPlay (g : Game) (play : RawEvent) : Except PyErr (Option EventRow) :=
  if play.event ∈ weird_events then .ok none
  else if play.event ∈ other_events then .ok none
  else (buildRow g play).map some

/-- The whole event-row loop of `Game.makeDataFrames`: retained rows in
feed order, or the first exception raised. -/
def buildEventRows (g : Game) : List RawEvent → Except PyErr (List EventRow)
  | [] => .ok []
  | play :: rest =>
    match processPlay g play with
    | .error e => .error e
    | .ok none => buildEventRows g rest
    | .ok (some r) =>
      match buildEventRows g rest with
      | .error e => .error e
      | .ok rs => .ok (r :: rs)

/-- `Game.shotData` (lines 126-219).  The cached table is returned when no
refresh is requested and `_shotData` is not `None`; otherwise the rows are
recomputed.  The source's line 219 returns the fresh DataFrame *without*
writing `self._shotData`, so the state is returned unchanged; a requested
refresh re-fetches the same archived feed (network modelled as stable). -/
def Game.shotData (g : Game) (updateLiveData : Bool) :
    Except PyErr (List ShotRow × Game) :=
  match g.shotDataCache, updateLiveData with
  | some cached, false => .ok (cached, g)
  | _, _ =>
    match shotRows g.home g.away g.live_plays with
    | .error e => .error e
    | .ok rows => .ok (rows, g)

/-- `Game.makeDataFrames` (lines 221-389).  With a warm cache and no refresh
it returns `self._DataFrame` (line 241); otherwise it computes the event
table, stores it in `self._DataFrame` (line 345), and returns Python `None`
(line 389), modelled as `Option.none` in the first component.  The derived
category tables (shot/penalty/turnover/hit projections of the stored table)
are not modelled. -/
def Game.makeDataFrames (g : Game) (updateLiveData : Bool) :
    Except PyErr (Option (List EventRow) × Game) :=
  match g.dataFrameCache, updateLiveData with
  | some cached, false => .ok (some cached, g)
  | _, _ =>
    match buildEventRows g g.live_plays with
    | .error e => .error e
    | .ok rows => .ok (none, { g with dataFrameCache := some rows })

/-- Python dict key lookup on an association-list model of
`teamStats.teamSkaterStats` (`None` stands for `KeyError`). -/
def lookupStat : List (String × Int) → String → Option Int
  | [], _ => none
  | (k, v) :: rest, key => if k = key then some v else lookupStat rest key

/-- One row of `self.agg_stats` (game.py lines 84-104): the six context
columns followed by the interleaved for/against statistic values. -/
structure AggRow where
  date : String
  team : String
  team_id : Int
  opponent : String
  home : Bool
  win : Bool
  stats : List Int
deriving DecidableEq, Repr

/-- The `for stat in _stats['home']['teamStats']['teamSkaterStats'].keys()`
loop (lines 87-93): for each home-side key, append `(own, opponent)` to the
home row and `(own, opponent)` to the away row; looking the key up in the
away-side dict can raise `KeyError`. -/
def statPairs : List (String × Int) → List (String × Int) →
    Except PyErr (List Int × List Int)
  | [], _ => .ok ([], [])
  | (key, hv) :: rest, awayStats =>
    match lookupStat awayStats key with
    | none => .error .keyError
    | some av =>
      match statPairs rest awayStats with
      | .error e => .error e
      | .ok (hs, aws) => .ok (hv :: av :: hs, av :: hv :: aws)

/-- Construction of `self.agg_stats` (lines 83-104): the DataFrame built
from `[_home, _away]`. -/
def aggStatsTable (date home away : String) (home_id away_id : Int)
    (winner : Option String) (homeStats awayStats : List (String × Int)) :
    Except PyErr (List AggRow) :=
  match statPairs homeStats awayStats with
  | .error e => .error e
  | .ok (hs, aws) =>
    .ok [{ date := date, team := home, team_id := home_id, opponent := away,
           home := true, win := decide (winner = some home), stats := hs },
         { date := date, team := away, team_id := away_id, opponent := home,
           home := false, win := decide (winner = some away), stats := aws }]

/-- Specification-side helper: swap each adjacent `(for, against)` pair of
an interleaved statistics list, to state that one row's `for` column is the
other row's `against` column. -/
def swapPairs : List Int → List Int
  | a :: b :: rest => b :: a :: swapPairs rest
  | l => l

/-- `team_id` argument of `Team.__init__` (team.py line 6): `str or int`. -/
inductive TeamIdArg where
  | int (n : Int)
  | str (s : String)
deriving DecidableEq, Repr

/-- Outcome of `Team.__init__` up to the roster request (team.py
lines 112-119). -/
inductive TeamInitResult where
  | ok (team_id : String)
  | keyError
  | attributeError
deriving DecidableEq, Repr

/-- The case-insensitive `_team_map` of `Team.__init__` (team.py
lines 78-110). -/
def teamMap : List (String × Int) :=
  [("new jersey devils", 1), ("njd", 1),
   ("new york islanders", 2), ("nyi", 2),
   ("new york rangers", 3), ("nyr", 3),
   ("philadelphia flyers", 4), ("phi", 4),
   ("pittsburgh penguins", 5), ("pit", 5),
   ("boston bruins", 6), ("bos", 6),
   ("buffalo sabres", 7), ("buf", 7),
   ("montreal canadiens", 8), ("mtl", 8),
   ("ottawa senators", 9), ("ott", 9),
   ("toronto maple leafs", 10), ("tor", 10),
   ("carolina hurricanes", 12), ("car", 12),
   ("florida panthers", 13), ("fla", 13),
   ("tampa bay lightning", 14), ("tbl", 14),
   ("washington capitals", 15), ("wsh", 15),
   ("chicago blackhawks", 16), ("chi", 16),
   ("detroit red wings", 17), ("det", 17),
   ("nashville predators", 18), ("nsh", 18),
   ("st. louis blues", 19), ("stl", 19),
   ("calgary flames", 20), ("cgy", 20),
   ("colorado avalanche", 21), ("col", 21),
   ("edmonton oilers", 22), ("edm", 22),
   ("vancouver canucks", 23), ("van", 23),
   ("anaheim ducks", 24), ("ana", 24),
   ("dallas stars", 25), ("dal", 25),
   ("los angeles kings", 26), ("lak", 26),
   ("san jose sharks", 28), ("sjs", 28),
   ("columbus blue jackets", 29), ("cbj", 29),
   ("minnesota wild", 30), ("min", 30),
   ("winnipeg jets", 52), ("wpg", 52),
   ("arizona coyotes", 53), ("ari", 53),
   ("vegas golden knights", 54), ("vgk", 54)]

/-- `_team_map[...]` lookup (Python dict access; `None` is `KeyError`). -/
def lookupTeam : List (String × Int) → String → Option Int
  | [], _ => none
  | (k, v) :: rest, key => if k = key then some v else lookupTeam rest key

/-- `Team.__init__` team-id resolution and its use at the roster request
(team.py lines 112-119): an `int` argument is stringified; a string longer
than two characters is lower-cased and resolved through `_team_map`
(`KeyError` when absent); any other string executes neither branch, so
`self.team_id` is never assigned and the roster request at line 119 raises
`AttributeError`. -/
def teamInitResolve (arg : TeamIdArg) : TeamInitResult :=
  match arg with
  | .int n => .ok (toString n)
  | .str s =>
    if s.length > 2 then
      match lookupTeam teamMap (strLower s) with
      | some n => .ok (toString n)
      | none => .keyError
    else .attributeError

/-! ## Concrete fixtures

Small feed fragments used to instantiate the theorems: a BOS (home) versus
NYR (away) game, the spec's BLOCKED_SHOT example event, and variants. -/

/-- The spec example's shooter entry: playerType Shooter, fullName A. -/
def shooterA : Participant :=
  { playerType := "Shooter", player := { fullName := "A", id := 101 } }

/-- The spec example's blocker entry: playerType Blocker, fullName B. -/
def blockerB : Participant :=
  { playerType := "Blocker", player := { fullName := "B", id := 102 } }

/-- The spec's BLOCKED_SHOT example raw event (team BOS, Shooter A,
Blocker B, coordinates x 10 y -5, period 2, periodTime 05:00). -/
def exBlockedShot : RawEvent :=
  { eventTypeId := "BLOCKED_SHOT", event := "Blocked Shot",
    description := "A blocked by B", secondaryType := none, enGw := none,
    strength := none, team := some "BOS", players := some [shooterA, blockerB],
    coordinates := some [10, -5], period := 2, periodTime := "05:00",
    periodTimeRemaining := "15:00", goalsHome := 0, goalsAway := 0 }

/-- The ShotRecord the spec expects for `exBlockedShot` in a BOS-vs-NYR
game. -/
def exBlockedRow : ShotRow :=
  { shooter := some "A", result := some "blocked", other := some "B",
    shotType := none, coords := some [-10, 5], period := some 2,
    periodTime := some "05:00", shooterTeam := some "NYR",
    otherTeam := some "BOS" }

/-- A shot event in an even period whose `coordinates` key is absent. -/
def exShotNoCoords : RawEvent :=
  { exBlockedShot with eventTypeId := "SHOT", event := "Shot",
                       coordinates := none }

/-- An event whose display name is in none of the three classification
sets. -/
def exMysteryEvent : RawEvent :=
  { exBlockedShot with eventTypeId := "MYSTERY_EVENT", event := "Mystery Event",
                       period := 1 }

/-- An empty-net goal with a three-entry participant list. -/
def exEmptyNetGoal : RawEvent :=
  { eventTypeId := "GOAL", event := "Goal", description := "A scores",
    secondaryType := some "Wrist Shot", enGw := some (true, false),
    strength := some "even", team := some "BOS",
    players := some
      [{ playerType := "Scorer", player := { fullName := "A", id := 101 } },
       { playerType := "Assist", player := { fullName := "C", id := 103 } },
       { playerType := "Assist", player := { fullName := "D", id := 104 } }],
    coordinates := some [30, 2], period := 3, periodTime := "18:00",
    periodTimeRemaining := "02:00", goalsHome := 1, goalsAway := 0 }

/-- A BOS (home) versus NYR (away) game instance with cold caches. -/
def gBOS : Game :=
  { home := "BOS", away := "NYR", home_id := 6, away_id := 3,
    game_id := "2019020001", date := "2019-10-01",
    winner := winnerAttr "BOS" "NYR" { homeGoals := 3, awayGoals := 1 },
    live_plays := [exBlockedShot, exEmptyNetGoal],
    shotDataCache := none, dataFrameCache := none }

/-! ## Claims -/

/-- C1 counterexample: with linescore goal totals home 3, away 1 (home not
strictly below away) the derived winner is the away triCode NYR, not the
home triCode BOS as the claim states. -/
theorem C1_counterexample :
    ¬ ((3 : Int) < 1) ∧
    winnerAttr "BOS" "NYR" { homeGoals := 3, awayGoals := 1 } = some "NYR" ∧
    ¬ winnerAttr "BOS" "NYR" { homeGoals := 3, awayGoals := 1 } = some "BOS" := by
  decide

/-- C1 (amended): because line 56 reads the home linescore entry into
`away_goals`, the strict-greater test never succeeds and — the game always
being marked final — the derived winner is always the away team's triCode,
whatever the linescore holds; and every event-table row carries this winner
attribute. -/
theorem C1_winner_always_away (home away : String) (ls : LinescoreTeams)
    (g : Game) (ev : RawEvent) (row : EventRow)
    (hrow : buildRow g ev = .ok row) :
    winnerAttr home away ls = some away ∧ row.winning_team = g.winner := by
  constructor
  · simp [winnerAttr, finalAttr, homeGoalsAttr, awayGoalsAttr]
  · unfold buildRow at hrow
    cases hpf : playersFields ev.players (playEmptyNet ev) with
    | error e => simp [hpf] at hrow
    | ok t =>
      obtain ⟨p1, p1id, p1role, p2, p2id, p2role⟩ := t
      cases hteam : ev.team with
      | none => simp [hpf, hteam] at hrow
      | some tri =>
        simp only [hpf, hteam, Except.ok.injEq] at hrow
        subst hrow
        rfl

/-- The event-table row the code produces for `exEmptyNetGoal` in `gBOS`. -/
def exGoalRow : EventRow :=
  { event := "goal", secondary_type := some "Wrist Shot",
    player_one := some "A", player_one_role := some "Scorer",
    player_two := none, player_two_role := none,
    coords := some [30, 2], period := 3,
    period_time_remaining := "02:00", player_one_team := "BOS",
    player_two_team := "NYR", home_team := "BOS", home_team_id := 6,
    away_team := "NYR", away_team_id := 3, home_goals := 1,
    away_goals := 0, game_winning := some false,
    empty_net := some true, player_one_id := some 101,
    player_two_id := none, game_id := "2019020001",
    winning_team := some "NYR", date := "2019-10-01",
    description := "A scores" }

/-- C1 witness: the amended theorem applied to the concrete BOS-vs-NYR
fixtures. -/
theorem C1_winner_always_away_witness :
    buildRow gBOS exEmptyNetGoal = .ok exGoalRow ∧
    winnerAttr "BOS" "NYR" { homeGoals := 3, awayGoals := 1 } = some "NYR" ∧
    exGoalRow.winning_team = gBOS.winner := by
  refine ⟨by decide, ?_, ?_⟩
  · exact (C1_winner_always_away "BOS" "NYR" { homeGoals := 3, awayGoals := 1 }
      gBOS exEmptyNetGoal exGoalRow (by decide)).1
  · exact (C1_winner_always_away "BOS" "NYR" { homeGoals := 3, awayGoals := 1 }
      gBOS exEmptyNetGoal exGoalRow (by decide)).2

/-- C10: any string `team_id` of length at most two — the default `'10'`
included — executes neither conversion branch of `Team.__init__`, so
`self.team_id` is never assigned and construction fails with
`AttributeError` at the roster request; `int` inputs are stringified, and
only strings longer than two characters reach the map lookup
(`'bos'` resolving to id 6). -/
theorem C10_short_string_unassigned (s : String) (h : s.length ≤ 2) :
    teamInitResolve (.str s) = .attributeError ∧
    teamInitResolve (.str "10") = .attributeError ∧
    teamInitResolve (.str "bos") = .ok "6" ∧
    ∀ n : Int, teamInitResolve (.int n) = .ok (toString n) := by
  refine ⟨?_, by decide, by decide, fun n => rfl⟩
  unfold teamInitResolve
  have h2 : ¬ s.length > 2 := by omega
  simp [h2]

/-- C10 witness: the theorem applied at the default argument `'10'`. -/
theorem C10_short_string_unassigned_witness :
    "10".length ≤ 2 ∧ teamInitResolve (.str "10") = .attributeError :=
  ⟨by decide, (C10_short_string_unassigned "10" (by decide)).1⟩

/-- C4: for every shot-family event the team attribution is
category-dependent — on result `blocked` the event's team field is recorded
as the other (blocking) team and the shooter's team is the game's remaining
team, on every other result the event's team field is the shooter's team and
the remaining team is the other team; and the spec's BLOCKED_SHOT example in
a BOS-vs-NYR game yields exactly the expected ShotRecord. -/
theorem C4_shot_team_attribution (home away tri : String) (ev : RawEvent)
    (row : ShotRow) (hmem : ev.eventTypeId ∈ shotIDs)
    (hteam : ev.team = some tri)
    (hok : processShotEvent home away ev = .ok (some row)) :
    (shotResult ev.eventTypeId = "blocked" →
       row.otherTeam = some tri ∧
       row.shooterTeam = some (if home = tri then away else home)) ∧
    (shotResult ev.eventTypeId ≠ "blocked" →
       row.shooterTeam = some tri ∧
       row.otherTeam = some (if home = tri then away else home)) ∧
    processShotEvent "BOS" "NYR" exBlockedShot = .ok (some exBlockedRow) := by
  refine ⟨?_, ?_, by decide⟩ <;>
  · intro hb
    unfold processShotEvent at hok
    simp only [hmem, if_true, hteam] at hok
    cases hps : ev.players with
    | none => simp [hps] at hok
    | some ps =>
      cases hfc : flipCoords ev.coordinates ev.period with
      | error e => simp [hps, hfc] at hok
      | ok coords =>
        simp only [hps, hfc, Except.ok.injEq, Option.some.injEq] at hok
        subst hok
        simp [shotTeams, hb]

/-- C4 witness: the theorem at the spec's BLOCKED_SHOT example. -/
theorem C4_shot_team_attribution_witness :
    exBlockedShot.eventTypeId ∈ shotIDs ∧
    exBlockedShot.team = some "BOS" ∧
    processShotEvent "BOS" "NYR" exBlockedShot = .ok (some exBlockedRow) ∧
    exBlockedRow.otherTeam = some "BOS" ∧ exBlockedRow.shooterTeam = some "NYR" := by
  refine ⟨by decide, by decide, by decide, ?_⟩
  have h := (C4_shot_team_attribution "BOS" "NYR" "BOS" exBlockedShot
    exBlockedRow (by decide) (by decide) (by decide)).1 (by decide)
  simpa using h

/-- C5: for every produced shot row whose raw coordinates are present, the
stored coordinate vector is the componentwise negation of the raw vector
when the period number is even and the raw vector unchanged when it is
odd. -/
theorem C5_even_period_negates_coords (home away : String) (ev : RawEvent)
    (row : ShotRow) (v : List Int)
    (hok : processShotEvent home away ev = .ok (some row))
    (hc : ev.coordinates = some v) :
    (ev.period % 2 = 0 → row.coords = some (v.map (fun x => -x))) ∧
    (¬ ev.period % 2 = 0 → row.coords = some v) := by
  unfold processShotEvent at hok
  by_cases hmem : ev.eventTypeId ∈ shotIDs
  · simp only [hmem, if_true] at hok
    cases hteam : ev.team with
    | none => simp [hteam] at hok
    | some tri =>
      cases hps : ev.players with
      | none => simp [hteam, hps] at hok
      | some ps =>
        by_cases hp : ev.period % 2 = 0
        · have hfc : flipCoords ev.coordinates ev.period =
              .ok (some (v.map (fun x => -x))) := by
            simp [flipCoords, hp, hc]
          simp only [hteam, hps, hfc, Except.ok.injEq, Option.some.injEq] at hok
          subst hok
          exact ⟨fun _ => rfl, fun h => absurd hp h⟩
        · have hfc : flipCoords ev.coordinates ev.period = .ok (some v) := by
            simp [flipCoords, hp, hc]
          simp only [hteam, hps, hfc, Except.ok.injEq, Option.some.injEq] at hok
          subst hok
          exact ⟨fun h => absurd h hp, fun _ => rfl⟩
  · simp [hmem] at hok

/-- C5 witness: the theorem at the spec's even-period BLOCKED_SHOT
example. -/
theorem C5_even_period_negates_coords_witness :
    processShotEvent "BOS" "NYR" exBlockedShot = .ok (some exBlockedRow) ∧
    exBlockedShot.coordinates = some [10, -5] ∧
    exBlockedShot.period % 2 = 0 ∧
    exBlockedRow.coords = some ([10, -5].map (fun x => -x)) := by
  refine ⟨by decide, by decide, by decide, ?_⟩
  exact (C5_even_period_negates_coords "BOS" "NYR" exBlockedShot exBlockedRow
    [10, -5] (by decide) (by decide)).1 (by decide)

/-- C6: record of the actual code behaviour at the claimed configuration —
a shot event in an even period with no `coordinates` key makes
`coords = -coords` raise `TypeError`, which the clause
`except IndexError or TypeError` (game.py line 211, evaluating to
`IndexError` alone) does not catch: the row is not produced and the whole
shot-table pass aborts, contradicting the claim that the failure is
swallowed. -/
theorem C6_even_period_missing_coords_raises :
    exShotNoCoords.coordinates = none ∧
    exShotNoCoords.period % 2 = 0 ∧
    processShotEvent "BOS" "NYR" exShotNoCoords = .error .typeError ∧
    shotRows "BOS" "NYR" [exShotNoCoords] = .error .typeError := by
  decide

/-- A retained event (Hit) whose `team` key is missing. -/
def exHitNoTeam : RawEvent :=
  { eventTypeId := "HIT", event := "Hit", description := "X hit Y",
    secondaryType := none, enGw := none, strength := none, team := none,
    players := some [{ playerType := "Hitter", player := { fullName := "X", id := 5 } },
                     { playerType := "Hittee", player := { fullName := "Y", id := 7 } }],
    coordinates := some [1, 2], period := 1, periodTime := "01:00",
    periodTimeRemaining := "19:00", goalsHome := 0, goalsAway := 0 }

/-- A retained event (Faceoff) whose `players` list is present but empty. -/
def exFaceoffEmptyPlayers : RawEvent :=
  { exHitNoTeam with eventTypeId := "FACEOFF", event := "Faceoff",
                     team := some "BOS", players := some [] }

/-- A retained event (Giveaway) with every optional field absent. -/
def exBareEvent : RawEvent :=
  { eventTypeId := "GIVEAWAY", event := "Giveaway", description := "bare",
    secondaryType := none, enGw := none, strength := none, team := some "BOS",
    players := none, coordinates := none, period := 1, periodTime := "01:00",
    periodTimeRemaining := "19:00", goalsHome := 0, goalsAway := 0 }

/-- A structural event of the ignorable set. -/
def exGameEnd : RawEvent :=
  { exBareEvent with eventTypeId := "GAME_END", event := "Game End" }

/-- The event-table row the code produces for `exBlockedShot` in `gBOS`
(coordinates unflipped in this table). -/
def exBlockedEventRow : EventRow :=
  { event := "blocked_shot", secondary_type := none,
    player_one := some "A", player_one_role := some "Shooter",
    player_two := some "B", player_two_role := some "Blocker",
    coords := some [10, -5], period := 2, period_time_remaining := "15:00",
    player_one_team := "BOS", player_two_team := "NYR",
    home_team := "BOS", home_team_id := 6, away_team := "NYR",
    away_team_id := 3, home_goals := 0, away_goals := 0,
    game_winning := none, empty_net := none, player_one_id := some 101,
    player_two_id := some 102, game_id := "2019020001",
    winning_team := some "NYR", date := "2019-10-01",
    description := "A blocked by B" }

/-- Specification-side predicate: a play survives the two `continue`
filters of `Game.makeDataFrames`. -/
def retainedPlay (p : RawEvent) : Bool :=
  decide (¬ p.event ∈ weird_events ∧ ¬ p.event ∈ other_events)

/-- C2 counterexample: an event whose type is in none of the three
classification sets is *retained* — the built event table contains a row
for it — rather than treated as ignorable as the claim states. -/
theorem C2_counterexample :
    ¬ exMysteryEvent.event ∈ weird_events ∧
    ¬ exMysteryEvent.event ∈ other_events ∧
    ¬ exMysteryEvent.event ∈ game_events ∧
    (buildEventRows gBOS [exMysteryEvent]).map List.length = .ok 1 := by
  decide

/-- C2 (amended): the loop of `Game.makeDataFrames` filters only against
`weird_events` and `other_events` (the `game_events` set is never
consulted), so every other play — unknown types included — is retained, and
when the pass succeeds the event-table row count equals the count of plays
in neither of those two sets. -/
theorem C2_retained_count (g : Game) (plays : List RawEvent)
    (rows : List EventRow) (h : buildEventRows g plays = .ok rows) :
    rows.length = (plays.filter retainedPlay).length := by
  induction plays generalizing rows with
  | nil =>
    simp only [buildEventRows, Except.ok.injEq] at h
    subst h
    simp
  | cons play rest ih =>
    rw [buildEventRows] at h
    cases hpp : processPlay g play with
    | error e => rw [hpp] at h; simp at h
    | ok o =>
      cases o with
      | none =>
        rw [hpp] at h
        have hskip : retainedPlay play = false := by
          by_contra hc
          have hr : ¬ play.event ∈ weird_events ∧ ¬ play.event ∈ other_events := by
            have := Bool.of_not_eq_false hc
            simpa [retainedPlay] using this
          rw [processPlay, if_neg hr.1, if_neg hr.2] at hpp
          cases hb : buildRow g play with
          | error e => rw [hb] at hpp; simp [Except.map] at hpp
          | ok r => rw [hb] at hpp; simp [Except.map] at hpp
        rw [List.filter_cons_of_neg (by simp [hskip])]
        exact ih rows h
      | some r =>
        rw [hpp] at h
        cases hrest : buildEventRows g rest with
        | error e => rw [hrest] at h; simp at h
        | ok rs =>
          rw [hrest] at h
          simp only [Except.ok.injEq] at h
          subst h
          have hkeep : retainedPlay play = true := by
            by_contra hc
            have hmem : play.event ∈ weird_events ∨ play.event ∈ other_events := by
              have := Bool.of_not_eq_true hc
              simpa [retainedPlay, Decidable.not_not, or_iff_not_imp_left]
                using this
            rcases hmem with hm | hm
            · rw [processPlay, if_pos hm] at hpp; simp at hpp
            · by_cases hw : play.event ∈ weird_events
              · rw [processPlay, if_pos hw] at hpp; simp at hpp
              · rw [processPlay, if_neg hw, if_pos hm] at hpp; simp at hpp
          rw [List.filter_cons_of_pos hkeep]
          simp [ih rs hrest]

/-- C2 witness: the amended theorem on a feed holding one retained play and
one ignorable play. -/
theorem C2_retained_count_witness :
    buildEventRows gBOS [exBlockedShot, exGameEnd] = .ok [exBlockedEventRow] ∧
    [exBlockedEventRow].length =
      ([exBlockedShot, exGameEnd].filter retainedPlay).length := by
  have h : buildEventRows gBOS [exBlockedShot, exGameEnd] =
      .ok [exBlockedEventRow] := by decide
  exact ⟨h, C2_retained_count gBOS _ _ h⟩

/-- Reduction of the participant try-block when the empty-net flag is
set. -/
theorem playersFields_eq_emptyNet (p : Participant) (rest : List Participant)
    (en : Option Bool) (hen : en = some true) :
    playersFields (some (p :: rest)) en =
      .ok (some p.player.fullName, some p.player.id, some p.playerType,
           none, none, none) := by
  subst hen
  simp [playersFields]

/-- Reduction of the participant try-block when the first and last entries
carry the same name (and the empty-net flag is not set). -/
theorem playersFields_eq_sameName (p : Participant) (rest : List Participant)
    (en : Option Bool) (hen : ¬ en = some true)
    (hsame : (rest.getLastD p).player.fullName = p.player.fullName) :
    playersFields (some (p :: rest)) en =
      .ok (some p.player.fullName, some p.player.id, some p.playerType,
           none, none, none) := by
  have hsame' : (rest.getLast?.getD p).player.fullName = p.player.fullName := by
    rw [← List.getLastD_eq_getLast?]
    exact hsame
  simp [playersFields, hen, hsame']

/-- Reduction of the participant try-block in the general two-participant
case. -/
theorem playersFields_eq_distinct (p : Participant) (rest : List Participant)
    (en : Option Bool) (hen : ¬ en = some true)
    (hsame : ¬ (rest.getLastD p).player.fullName = p.player.fullName) :
    playersFields (some (p :: rest)) en =
      .ok (some p.player.fullName, some p.player.id, some p.playerType,
           some (rest.getLastD p).player.fullName,
           some (rest.getLastD p).player.id,
           some (rest.getLastD p).playerType) := by
  have hsame' : ¬ (rest.getLast?.getD p).player.fullName = p.player.fullName := by
    rw [← List.getLastD_eq_getLast?]
    exact hsame
  simp [playersFields, hen, hsame', List.getLastD_eq_getLast?]

/-- The participant try-block always succeeds on a non-empty list. -/
theorem playersFields_cons_ok (p : Participant) (rest : List Participant)
    (en : Option Bool) :
    ∃ t6, playersFields (some (p :: rest)) en = .ok t6 := by
  by_cases hen : en = some true
  · exact ⟨_, playersFields_eq_emptyNet p rest en hen⟩
  · by_cases hsame : (rest.getLastD p).player.fullName = p.player.fullName
    · exact ⟨_, playersFields_eq_sameName p rest en hen hsame⟩
    · exact ⟨_, playersFields_eq_distinct p rest en hen hsame⟩

/-- C3 counterexample: a retained event whose `team` key is missing makes
the whole event-table pass raise `KeyError` (game.py line 328 sits outside
every try-block), and a retained event with an *empty* `players` list makes
it raise `IndexError` (only `KeyError` is caught at line 324); in both
cases the failure is not downgraded to an absent field. -/
theorem C3_counterexample :
    ¬ exHitNoTeam.event ∈ weird_events ∧
    ¬ exHitNoTeam.event ∈ other_events ∧
    exHitNoTeam.team = none ∧
    buildEventRows gBOS [exHitNoTeam] = .error .keyError ∧
    exFaceoffEmptyPlayers.players = some [] ∧
    buildEventRows gBOS [exFaceoffEmptyPlayers] = .error .indexError := by
  decide

/-- C3 (amended): per-field downgrading holds for the optional fields —
missing coordinates, empty-net/game-winning, strength or secondary type are
replaced by absent values, and a missing `players` key downgrades all six
participant fields — so the row is still produced; but only provided the
event's `team` key is present and its `players` list, when present, is
non-empty (a missing `team` key raises `KeyError` and an empty `players`
list raises `IndexError`, aborting the whole pass). -/
theorem C3_field_scope_downgrade (g : Game) (ev : RawEvent) (tri : String)
    (hteam : ev.team = some tri) (hps : ¬ ev.players = some []) :
    ∃ row, buildRow g ev = .ok row ∧
      (ev.coordinates = none → row.coords = none) ∧
      (ev.secondaryType = none → row.secondary_type = none) ∧
      (ev.enGw = none → row.empty_net = none ∧ row.game_winning = none) ∧
      (ev.players = none →
        row.player_one = none ∧ row.player_one_id = none ∧
        row.player_one_role = none ∧ row.player_two = none ∧
        row.player_two_id = none ∧ row.player_two_role = none) := by
  have hpf : ∃ t6, playersFields ev.players (playEmptyNet ev) = .ok t6 ∧
      (ev.players = none → t6 = (none, none, none, none, none, none)) := by
    cases hp : ev.players with
    | none => exact ⟨_, by simp [playersFields], fun _ => rfl⟩
    | some ps =>
      cases ps with
      | nil => exact absurd hp hps
      | cons p rest =>
        obtain ⟨t6, ht6⟩ := playersFields_cons_ok p rest (playEmptyNet ev)
        exact ⟨t6, ht6, by simp [hp]⟩
  obtain ⟨t6, hpf, hnone⟩ := hpf
  obtain ⟨p1, p1id, p1role, p2, p2id, p2role⟩ := t6
  have hrow : buildRow g ev = .ok
      { event := strLower ev.eventTypeId, secondary_type := ev.secondaryType,
        player_one := p1, player_one_role := p1role, player_two := p2,
        player_two_role := p2role, coords := ev.coordinates,
        period := ev.period,
        period_time_remaining := ev.periodTimeRemaining,
        player_one_team := tri,
        player_two_team := if g.home = tri then g.away else g.home,
        home_team := g.home, home_team_id := g.home_id, away_team := g.away,
        away_team_id := g.away_id, home_goals := ev.goalsHome,
        away_goals := ev.goalsAway, game_winning := playGameWinning ev,
        empty_net := playEmptyNet ev, player_one_id := p1id,
        player_two_id := p2id, game_id := g.game_id,
        winning_team := g.winner, date := g.date,
        description := ev.description } := by
    unfold buildRow
    simp only [hpf, hteam]
  refine ⟨_, hrow, fun hc => hc, fun hc => hc, ?_, ?_⟩
  · intro hc
    simp [playEmptyNet, playGameWinning, hc]
  · intro hc
    have := hnone hc
    simp only [Prod.mk.injEq] at this
    obtain ⟨h1, h2, h3, h4, h5, h6⟩ := this
    simp [h1, h2, h3, h4, h5, h6]

/-- C3 witness: the amended theorem at the all-optional-fields-absent
event. -/
theorem C3_field_scope_downgrade_witness :
    exBareEvent.team = some "BOS" ∧
    ¬ exBareEvent.players = some [] ∧
    exBareEvent.coordinates = none ∧
    (buildRow gBOS exBareEvent).toOption.map (fun r => r.coords) = some none := by
  refine ⟨by decide, by decide, by decide, ?_⟩
  obtain ⟨row, hrow, hc, -, -, -⟩ :=
    C3_field_scope_downgrade gBOS exBareEvent "BOS" (by decide) (by decide)
  rw [hrow]
  simp [Except.toOption, hc (by decide)]

/-- C7: for every retained event with a non-empty participant sequence, the
primary participant (name, id, role) is the first entry; the secondary is
the last entry, forced absent whenever the empty-net flag is set or the
first and last entries carry the same name — in particular absent for an
empty-net goal whatever the sequence's length. -/
theorem C7_participant_selection (g : Game) (ev : RawEvent) (p : Participant)
    (rest : List Participant) (row : EventRow)
    (hp : ev.players = some (p :: rest))
    (hok : buildRow g ev = .ok row) :
    row.player_one = some p.player.fullName ∧
    row.player_one_id = some p.player.id ∧
    row.player_one_role = some p.playerType ∧
    (playEmptyNet ev = some true →
       row.player_two = none ∧ row.player_two_id = none ∧
       row.player_two_role = none) ∧
    ((rest.getLastD p).player.fullName = p.player.fullName →
       row.player_two = none ∧ row.player_two_id = none ∧
       row.player_two_role = none) ∧
    (¬ playEmptyNet ev = some true →
     ¬ (rest.getLastD p).player.fullName = p.player.fullName →
       row.player_two = some (rest.getLastD p).player.fullName ∧
       row.player_two_id = some (rest.getLastD p).player.id ∧
       row.player_two_role = some (rest.getLastD p).playerType) := by
  unfold buildRow at hok
  by_cases hen : playEmptyNet ev = some true
  · have hpf : playersFields ev.players (playEmptyNet ev) =
        .ok (some p.player.fullName, some p.player.id, some p.playerType,
             none, none, none) := by
      rw [hp]
      exact playersFields_eq_emptyNet p rest _ hen
    simp only [hpf] at hok
    cases hteam : ev.team with
    | none => simp [hteam] at hok
    | some tri =>
      simp only [hteam, Except.ok.injEq] at hok
      subst hok
      refine ⟨rfl, rfl, rfl, fun _ => ⟨rfl, rfl, rfl⟩,
              fun _ => ⟨rfl, rfl, rfl⟩, fun hne _ => absurd hen hne⟩
  · by_cases hsame : (rest.getLastD p).player.fullName = p.player.fullName
    · have hpf : playersFields ev.players (playEmptyNet ev) =
          .ok (some p.player.fullName, some p.player.id, some p.playerType,
               none, none, none) := by
        rw [hp]
        exact playersFields_eq_sameName p rest _ hen hsame
      simp only [hpf] at hok
      cases hteam : ev.team with
      | none => simp [hteam] at hok
      | some tri =>
        simp only [hteam, Except.ok.injEq] at hok
        subst hok
        refine ⟨rfl, rfl, rfl, fun he => absurd he hen,
                fun _ => ⟨rfl, rfl, rfl⟩, fun _ hns => absurd hsame hns⟩
    · have hpf : playersFields ev.players (playEmptyNet ev) =
          .ok (some p.player.fullName, some p.player.id, some p.playerType,
               some (rest.getLastD p).player.fullName,
               some (rest.getLastD p).player.id,
               some (rest.getLastD p).playerType) := by
        rw [hp]
        exact playersFields_eq_distinct p rest _ hen hsame
      simp only [hpf] at hok
      cases hteam : ev.team with
      | none => simp [hteam] at hok
      | some tri =>
        simp only [hteam, Except.ok.injEq] at hok
        subst hok
        refine ⟨rfl, rfl, rfl, fun he => absurd he hen,
                fun hs => absurd hs hsame, fun _ _ => ⟨rfl, rfl, rfl⟩⟩

/-- C7 witness: the theorem at the empty-net goal with a three-entry
participant sequence. -/
theorem C7_participant_selection_witness :
    exEmptyNetGoal.players =
      some ({ playerType := "Scorer", player := { fullName := "A", id := 101 } } ::
            [{ playerType := "Assist", player := { fullName := "C", id := 103 } },
             { playerType := "Assist", player := { fullName := "D", id := 104 } }]) ∧
    buildRow gBOS exEmptyNetGoal = .ok exGoalRow ∧
    playEmptyNet exEmptyNetGoal = some true ∧
    exGoalRow.player_two = none ∧ exGoalRow.player_one = some "A" := by
  refine ⟨by decide, by decide, by decide, ?_, ?_⟩
  · exact (((C7_participant_selection gBOS exEmptyNetGoal
      { playerType := "Scorer", player := { fullName := "A", id := 101 } }
      [{ playerType := "Assist", player := { fullName := "C", id := 103 } },
       { playerType := "Assist", player := { fullName := "D", id := 104 } }]
      exGoalRow (by decide) (by decide)).2.2.2).1 (by decide)).1
  · exact (C7_participant_selection gBOS exEmptyNetGoal
      { playerType := "Scorer", player := { fullName := "A", id := 101 } }
      [{ playerType := "Assist", player := { fullName := "C", id := 103 } },
       { playerType := "Assist", player := { fullName := "D", id := 104 } }]
      exGoalRow (by decide) (by decide)).1

/-- `swapPairs` is an involution. -/
theorem swapPairs_swapPairs : ∀ l : List Int, swapPairs (swapPairs l) = l
  | [] => rfl
  | [a] => rfl
  | a :: b :: rest => by
    simp [swapPairs, swapPairs_swapPairs rest]

/-- The away statistics list produced by the boxscore loop is the home
statistics list with each adjacent for/against pair swapped. -/
theorem statPairs_swap (homeStats : List (String × Int)) :
    ∀ (awayStats : List (String × Int)) (hs aws : List Int),
      statPairs homeStats awayStats = .ok (hs, aws) → aws = swapPairs hs := by
  induction homeStats with
  | nil =>
    intro awayStats hs aws h
    simp only [statPairs, Except.ok.injEq, Prod.mk.injEq] at h
    obtain ⟨h1, h2⟩ := h
    subst h1
    subst h2
    rfl
  | cons kv rest ih =>
    intro awayStats hs aws h
    obtain ⟨key, hv⟩ := kv
    rw [statPairs] at h
    cases hl : lookupStat awayStats key with
    | none => rw [hl] at h; simp at h
    | some av =>
      rw [hl] at h
      cases hr : statPairs rest awayStats with
      | error e => rw [hr] at h; simp at h
      | ok pr =>
        obtain ⟨hs', aws'⟩ := pr
        rw [hr] at h
        simp only [Except.ok.injEq, Prod.mk.injEq] at h
        obtain ⟨h1, h2⟩ := h
        subst h1
        subst h2
        simp [swapPairs, ih awayStats hs' aws' hr]

/-- C8: whenever the boxscore aggregate is built, the table has exactly two
rows — the home row then the away row — and the interleaved for/against
statistics of the away row are exactly those of the home row with each
adjacent pair swapped (and conversely), i.e. every statistic's `for` value
in one row is its `against` value in the other. -/
theorem C8_boxscore_pairing (date home away : String) (home_id away_id : Int)
    (winner : Option String) (homeStats awayStats : List (String × Int))
    (t : List AggRow)
    (h : aggStatsTable date home away home_id away_id winner homeStats
           awayStats = .ok t) :
    t.length = 2 ∧
    ∃ hr ar, t = [hr, ar] ∧ hr.home = true ∧ ar.home = false ∧
      hr.team = home ∧ ar.team = away ∧
      ar.stats = swapPairs hr.stats ∧ hr.stats = swapPairs ar.stats := by
  unfold aggStatsTable at h
  cases hsp : statPairs homeStats awayStats with
  | error e => rw [hsp] at h; simp at h
  | ok pr =>
    obtain ⟨hs, aws⟩ := pr
    rw [hsp] at h
    simp only [Except.ok.injEq] at h
    subst h
    have hswap := statPairs_swap homeStats awayStats hs aws hsp
    refine ⟨rfl, _, _, rfl, rfl, rfl, rfl, rfl, hswap, ?_⟩
    rw [hswap, swapPairs_swapPairs]

/-- Home row of the concrete two-statistic boxscore fixture. -/
def exHomeAggRow : AggRow :=
  { date := "2019-10-01", team := "BOS", team_id := 6, opponent := "NYR",
    home := true, win := false, stats := [3, 1, 10, 12] }

/-- Away row of the concrete two-statistic boxscore fixture. -/
def exAwayAggRow : AggRow :=
  { date := "2019-10-01", team := "NYR", team_id := 3, opponent := "BOS",
    home := false, win := true, stats := [1, 3, 12, 10] }

/-- C8 witness: the theorem at a concrete two-statistic boxscore. -/
theorem C8_boxscore_pairing_witness :
    aggStatsTable "2019-10-01" "BOS" "NYR" 6 3 (some "NYR")
      [("goals", 3), ("hits", 10)] [("goals", 1), ("hits", 12)] =
      .ok [exHomeAggRow, exAwayAggRow] ∧
    [exHomeAggRow, exAwayAggRow].length = 2 ∧
    exAwayAggRow.stats = swapPairs exHomeAggRow.stats := by
  have h : aggStatsTable "2019-10-01" "BOS" "NYR" 6 3 (some "NYR")
      [("goals", 3), ("hits", 10)] [("goals", 1), ("hits", 12)] =
      .ok [exHomeAggRow, exAwayAggRow] := by decide
  obtain ⟨hlen, hr, ar, heq, -, -, -, -, hswap, -⟩ :=
    C8_boxscore_pairing "2019-10-01" "BOS" "NYR" 6 3 (some "NYR")
      [("goals", 3), ("hits", 10)] [("goals", 1), ("hits", 12)]
      [exHomeAggRow, exAwayAggRow] h
  refine ⟨h, hlen, ?_⟩
  injection heq with e1 e2
  injection e2 with e2 e3
  subst e1
  subst e2
  exact hswap

/-- The shot-table row the code produces for `exEmptyNetGoal` in `gBOS`. -/
def exGoalShotRow : ShotRow :=
  { shooter := some "A", result := some "goal", other := none,
    shotType := some "Wrist Shot", coords := some [30, 2],
    period := some 3, periodTime := some "18:00",
    shooterTeam := some "BOS", otherTeam := some "NYR" }

/-- C9 counterexample: on a cold instance one `shotData` call computes a
non-empty table yet returns the state unchanged — `_shotData` is still
`None` afterwards (game.py line 219 returns without storing), so the table
is not memoized as the claim states. -/
theorem C9_counterexample :
    gBOS.shotDataCache = none ∧
    Game.shotData gBOS false = .ok ([exBlockedRow, exGoalShotRow], gBOS) ∧
    (Game.shotData gBOS false).map (fun r => r.2.shotDataCache) = .ok none := by
  decide

/-- C9 (amended): only the event table is memoized — the first
`makeDataFrames` call stores the computed table in `_DataFrame` but returns
Python `None`, and later calls without a refresh return the stored table —
while `shotData` never writes its `_shotData` slot: every call leaves the
instance state unchanged (and therefore recomputes the table from the held
feed each time). -/
theorem C9_event_table_memoized (g : Game) (rows : List EventRow)
    (g2 g3 : Game) (r2 : List ShotRow)
    (hc : g.dataFrameCache = none)
    (hb : buildEventRows g g.live_plays = .ok rows)
    (hs : Game.shotData g2 false = .ok (r2, g3)) :
    Game.makeDataFrames g false =
      .ok (none, { g with dataFrameCache := some rows }) ∧
    Game.makeDataFrames { g with dataFrameCache := some rows } false =
      .ok (some rows, { g with dataFrameCache := some rows }) ∧
    g3 = g2 := by
  refine ⟨?_, rfl, ?_⟩
  · unfold Game.makeDataFrames
    simp only [hc, hb]
  · unfold Game.shotData at hs
    cases hcache : g2.shotDataCache with
    | some c =>
      simp only [hcache, Except.ok.injEq, Prod.mk.injEq] at hs
      exact hs.2.symm
    | none =>
      simp only [hcache] at hs
      cases hsr : shotRows g2.home g2.away g2.live_plays with
      | error e => rw [hsr] at hs; simp at hs
      | ok rows2 =>
        rw [hsr] at hs
        simp only [Except.ok.injEq, Prod.mk.injEq] at hs
        exact hs.2.symm

/-- C9 witness: the amended theorem at the concrete cold instance. -/
theorem C9_event_table_memoized_witness :
    buildEventRows gBOS gBOS.live_plays = .ok [exBlockedEventRow, exGoalRow] ∧
    Game.makeDataFrames gBOS false =
      .ok (none,
           { gBOS with dataFrameCache := some [exBlockedEventRow, exGoalRow] }) := by
  have hb : buildEventRows gBOS gBOS.live_plays =
      .ok [exBlockedEventRow, exGoalRow] := by decide
  have hs : Game.shotData gBOS false =
      .ok ([exBlockedRow, exGoalShotRow], gBOS) := by decide
  exact ⟨hb, (C9_event_table_memoized gBOS [exBlockedEventRow, exGoalRow]
    gBOS gBOS [exBlockedRow, exGoalShotRow] rfl hb hs).1⟩

end NHL
